import Mathlib

/-
Verification of the ClouDNS SDK client (`cloudns_sdk/api.py`) against its
specification.  The Python client is shallowly embedded: parameter
dictionaries and ordered tuple lists become association lists, the HTTP
transport (the `requests` module) becomes an explicit function from an
issued call to a status code and a parsed JSON body, and exceptional
control flow becomes an explicit result type.  Every embedded operation
also returns the list of transport calls it issued, so that properties
about what reaches the wire (and whether anything does) are stated
directly.
-/

set_option autoImplicit false

namespace CloudnsSdk

/-- A Python value as it occurs in the parameter sets built by the client:
a string, an integer, the `None` object, or an opaque object reference
(the `self` reference that `locals()` captures in `add_record` and
`modify_record`). -/
inductive Value where
  | str : String → Value
  | int : Int → Value
  | none : Value
  | obj : Value
  deriving DecidableEq, Repr

/-- A parameter set: a Python `dict` (in insertion order) or a list of
key/value tuples, both embedded as an association list. -/
abbrev Params := List (String × Value)

/-- Python `d[k] = v` / one step of `dict.update`: replace the value in
place when the key is present, append otherwise. -/
def dictInsert (d : Params) (k : String) (v : Value) : Params :=
  if d.any (fun p => p.1 = k) then
    d.map (fun p => if p.1 = k then (k, v) else p)
  else
    d ++ [(k, v)]

/-- Python `d.update(e)` for dictionaries embedded as association lists. -/
def dictUpdate (d : Params) (e : Params) : Params :=
  e.foldl (fun acc p => dictInsert acc p.1 p.2) d

/-- Embeds the Python value of an `Option String` argument whose default
is `None`. -/
def optStr : Option String → Value
  | Option.none => Value.none
  | some s => Value.str s

/-- Embeds the Python value of an `Option Int` argument whose default is
`None`. -/
def optInt : Option Int → Value
  | Option.none => Value.none
  | some n => Value.int n

/-- A call handed to the transport collaborator: `requests.get(url,
params=...)` or `requests.post(url, data=...)`. -/
inductive HttpCall where
  | get : String → Params → HttpCall
  | post : String → Params → HttpCall
  deriving DecidableEq, Repr

/-- The parameter set carried by a transport call: the query parameters of
a GET, or the body data of a POST. -/
def sentParams : HttpCall → Params
  | HttpCall.get _ p => p
  | HttpCall.post _ d => d

/-- The body of a transport call: empty for GET, the data for POST. -/
def callBody : HttpCall → Params
  | HttpCall.get _ _ => []
  | HttpCall.post _ d => d

/-- The outcome of a client operation: the parsed JSON payload of a 200
response, a `ClouDNSAPIException` carrying the parsed error body, a
Python `ValueError`, or a Python `TypeError`. -/
inductive ApiResult (J : Type) where
  | ok : J → ApiResult J
  | clouDNSAPIException : J → ApiResult J
  | valueError : String → ApiResult J
  | typeError : String → ApiResult J
  deriving DecidableEq, Repr

/-- The client: the credentials fixed at construction time, plus the
transport collaborator (module-level `requests` in the source), which maps
an issued call to the response status code and parsed JSON body `J`. -/
structure ClouDNSAPI (J : Type) where
  auth_id : Value
  auth_password : Value
  transport : HttpCall → Nat × J

/-- `ClouDNSAPI.BASE_URL`. -/
def BASE_URL : String := "https://api.cloudns.net"

/-- `ClouDNSAPI.RATE_LIMIT_PER_SECOND`. -/
def RATE_LIMIT_PER_SECOND : Nat := 20

/-- `ClouDNSAPI.make_request`: build the URL, dispatch GET with query
parameters or POST with body data, raise `ValueError` on any other
method, raise `ClouDNSAPIException` with the parsed body on a non-200
status, and return the parsed body on 200.  The second component records
the transport calls issued, in order. -/
def ClouDNSAPI.make_request {J : Type} (self : ClouDNSAPI J) (endpoint : String)
    (method : String := "GET") (params : Option Params := Option.none)
    (data : Option Params := Option.none) : ApiResult J × List HttpCall :=
  let url := BASE_URL ++ "/" ++ endpoint
  let params := params.getD []
  if method = "GET" then
    let call := HttpCall.get url params
    let response := self.transport call
    if response.1 ≠ 200 then
      (ApiResult.clouDNSAPIException response.2, [call])
    else
      (ApiResult.ok response.2, [call])
  else if method = "POST" then
    let call := HttpCall.post url (data.getD [])
    let response := self.transport call
    if response.1 ≠ 200 then
      (ApiResult.clouDNSAPIException response.2, [call])
    else
      (ApiResult.ok response.2, [call])
  else
    (ApiResult.valueError "Unsupported HTTP method", [])

/-- `ClouDNSAPI._auth_params`: the credential pair, updated with the
additional parameters when that dictionary is truthy (non-empty). -/
def ClouDNSAPI._auth_params {J : Type} (self : ClouDNSAPI J)
    (additional_params : Params := []) : Params :=
  let params : Params := [("auth-id", self.auth_id), ("auth-password", self.auth_password)]
  if additional_params.isEmpty then params else dictUpdate params additional_params

/-- `ClouDNSAPI.login`'s `params` dictionary, passed as the POST `data`. -/
def ClouDNSAPI.login_data {J : Type} (self : ClouDNSAPI J) : Params :=
  [("auth-id", self.auth_id), ("auth-password", self.auth_password)]

/-- `ClouDNSAPI.login`. -/
def ClouDNSAPI.login {J : Type} (self : ClouDNSAPI J) : ApiResult J × List HttpCall :=
  self.make_request "login/login.json" "POST" Option.none (some self.login_data)

/-- `ClouDNSAPI.get_current_ip`. -/
def ClouDNSAPI.get_current_ip {J : Type} (self : ClouDNSAPI J) : ApiResult J × List HttpCall :=
  self.make_request "ip/get-my-ip.json" "GET" (some (self._auth_params [])) Option.none

/-- `ClouDNSAPI.get_account_balance`. -/
def ClouDNSAPI.get_account_balance {J : Type} (self : ClouDNSAPI J) : ApiResult J × List HttpCall :=
  self.make_request "account/get-balance.json" "GET" (some (self._auth_params [])) Option.none

/-- The parameter set built by `ClouDNSAPI.get_available_name_servers`. -/
def ClouDNSAPI.get_available_name_servers_params {J : Type} (self : ClouDNSAPI J)
    (detailed_info : Int) : Params :=
  self._auth_params [("detailed-info", Value.int detailed_info)]

/-- `ClouDNSAPI.get_available_name_servers`. -/
def ClouDNSAPI.get_available_name_servers {J : Type} (self : ClouDNSAPI J)
    (detailed_info : Int := 0) : ApiResult J × List HttpCall :=
  self.make_request "dns/available-name-servers.json" "GET"
    (some (self.get_available_name_servers_params detailed_info)) Option.none

/-- The ordered tuple list built by `ClouDNSAPI.register_domain_zone`:
credentials, domain name and zone type, then one `ns[]` entry per name
server when the list is truthy, then `master-ip` when truthy. -/
def ClouDNSAPI.register_domain_zone_params {J : Type} (self : ClouDNSAPI J)
    (domain_name zone_type : String) (ns : List String) (master_ip : Option String) : Params :=
  let params : Params := [("auth-id", self.auth_id), ("auth-password", self.auth_password),
    ("domain-name", Value.str domain_name), ("zone-type", Value.str zone_type)]
  let params := if ns.isEmpty then params
    else params ++ ns.map (fun ns_server => ("ns[]", Value.str ns_server))
  match master_ip with
  | Option.none => params
  | some ip => params ++ [("master-ip", Value.str ip)]

/-- `ClouDNSAPI.register_domain_zone`. -/
def ClouDNSAPI.register_domain_zone {J : Type} (self : ClouDNSAPI J)
    (domain_name zone_type : String) (ns : List String := [])
    (master_ip : Option String := Option.none) : ApiResult J × List HttpCall :=
  self.make_request "dns/register.json" "POST"
    (some (self.register_domain_zone_params domain_name zone_type ns master_ip)) Option.none

/-- The parameter dictionary built by `ClouDNSAPI.delete_domain_zone`. -/
def ClouDNSAPI.delete_domain_zone_params {J : Type} (self : ClouDNSAPI J)
    (domain_name : String) : Params :=
  [("auth-id", self.auth_id), ("auth-password", self.auth_password),
   ("domain-name", Value.str domain_name)]

/-- `ClouDNSAPI.delete_domain_zone`. -/
def ClouDNSAPI.delete_domain_zone {J : Type} (self : ClouDNSAPI J)
    (domain_name : String) : ApiResult J × List HttpCall :=
  self.make_request "dns/delete.json" "POST"
    (some (self.delete_domain_zone_params domain_name)) Option.none

/-- The parameter set built by `ClouDNSAPI.list_zones`. -/
def ClouDNSAPI.list_zones_params {J : Type} (self : ClouDNSAPI J) (page rows_per_page : Int)
    (search : Option String) (group_id has_cloud_domains : Option Int) : Params :=
  self._auth_params [("page", Value.int page), ("rows-per-page", Value.int rows_per_page),
    ("search", optStr search), ("group-id", optInt group_id),
    ("has-cloud-domains", optInt has_cloud_domains)]

/-- `ClouDNSAPI.list_zones`. -/
def ClouDNSAPI.list_zones {J : Type} (self : ClouDNSAPI J) (page : Int := 1)
    (rows_per_page : Int := 20) (search : Option String := Option.none)
    (group_id : Option Int := Option.none) (has_cloud_domains : Option Int := Option.none) :
    ApiResult J × List HttpCall :=
  self.make_request "dns/list-zones.json" "GET"
    (some (self.list_zones_params page rows_per_page search group_id has_cloud_domains))
    Option.none

/-- The parameter set built by `ClouDNSAPI.get_pages_count`. -/
def ClouDNSAPI.get_pages_count_params {J : Type} (self : ClouDNSAPI J) (rows_per_page : Int)
    (search : Option String) (group_id has_cloud_domains : Option Int) : Params :=
  self._auth_params [("rows-per-page", Value.int rows_per_page), ("search", optStr search),
    ("group-id", optInt group_id), ("has-cloud-domains", optInt has_cloud_domains)]

/-- `ClouDNSAPI.get_pages_count`. -/
def ClouDNSAPI.get_pages_count {J : Type} (self : ClouDNSAPI J) (rows_per_page : Int := 10)
    (search : Option String := Option.none) (group_id : Option Int := Option.none)
    (has_cloud_domains : Option Int := Option.none) : ApiResult J × List HttpCall :=
  self.make_request "dns/get-pages-count.json" "GET"
    (some (self.get_pages_count_params rows_per_page search group_id has_cloud_domains))
    Option.none

/-- `ClouDNSAPI.get_zones_stats`. -/
def ClouDNSAPI.get_zones_stats {J : Type} (self : ClouDNSAPI J) : ApiResult J × List HttpCall :=
  self.make_request "dns/get-zones-stats.json" "GET" (some (self._auth_params [])) Option.none

/-- The parameter set built by `ClouDNSAPI.get_zone_info`. -/
def ClouDNSAPI.get_zone_info_params {J : Type} (self : ClouDNSAPI J)
    (domain_name : String) : Params :=
  self._auth_params [("domain-name", Value.str domain_name)]

/-- `ClouDNSAPI.get_zone_info`. -/
def ClouDNSAPI.get_zone_info {J : Type} (self : ClouDNSAPI J)
    (domain_name : String) : ApiResult J × List HttpCall :=
  self.make_request "dns/get-zone-info.json" "GET"
    (some (self.get_zone_info_params domain_name)) Option.none

/-- The parameter set built by `ClouDNSAPI.update_zone`. -/
def ClouDNSAPI.update_zone_params {J : Type} (self : ClouDNSAPI J)
    (domain_name : String) : Params :=
  self._auth_params [("domain-name", Value.str domain_name)]

/-- `ClouDNSAPI.update_zone`. -/
def ClouDNSAPI.update_zone {J : Type} (self : ClouDNSAPI J)
    (domain_name : String) : ApiResult J × List HttpCall :=
  self.make_request "dns/update-zone.json" "POST"
    (some (self.update_zone_params domain_name)) Option.none

/-- `ClouDNSAPI.get_update_status`. -/
def ClouDNSAPI.get_update_status {J : Type} (self : ClouDNSAPI J)
    (domain_name : String) : ApiResult J × List HttpCall :=
  self.make_request "dns/update-status.json" "GET"
    (some (self._auth_params [("domain-name", Value.str domain_name)])) Option.none

/-- `ClouDNSAPI.is_updated`. -/
def ClouDNSAPI.is_updated {J : Type} (self : ClouDNSAPI J)
    (domain_name : String) : ApiResult J × List HttpCall :=
  self.make_request "dns/is-updated.json" "GET"
    (some (self._auth_params [("domain-name", Value.str domain_name)])) Option.none

/-- The parameter set built by `ClouDNSAPI.change_zone_status`. -/
def ClouDNSAPI.change_zone_status_params {J : Type} (self : ClouDNSAPI J)
    (domain_name : String) (status : Option Int) : Params :=
  self._auth_params [("domain-name", Value.str domain_name), ("status", optInt status)]

/-- `ClouDNSAPI.change_zone_status`. -/
def ClouDNSAPI.change_zone_status {J : Type} (self : ClouDNSAPI J) (domain_name : String)
    (status : Option Int := Option.none) : ApiResult J × List HttpCall :=
  self.make_request "dns/change-status.json" "POST"
    (some (self.change_zone_status_params domain_name status)) Option.none

/-- `ClouDNSAPI.get_records_stats`. -/
def ClouDNSAPI.get_records_stats {J : Type} (self : ClouDNSAPI J) :
    ApiResult J × List HttpCall :=
  self.make_request "dns/get-records-stats.json" "GET" (some (self._auth_params []))
    Option.none

/-- `ClouDNSAPI.get_record`. -/
def ClouDNSAPI.get_record {J : Type} (self : ClouDNSAPI J) (domain_name : String)
    (record_id : Int) : ApiResult J × List HttpCall :=
  self.make_request "dns/get-record.json" "GET"
    (some (self._auth_params [("domain-name", Value.str domain_name),
      ("record-id", Value.int record_id)])) Option.none

/-- The parameter set built by `ClouDNSAPI.list_records`. -/
def ClouDNSAPI.list_records_params {J : Type} (self : ClouDNSAPI J) (domain_name : String)
    (host host_like record_type : Option String) (rows_per_page page : Int)
    (order_by : Option String) : Params :=
  self._auth_params [("domain-name", Value.str domain_name), ("host", optStr host),
    ("host-like", optStr host_like), ("type", optStr record_type),
    ("rows-per-page", Value.int rows_per_page), ("page", Value.int page),
    ("order-by", optStr order_by)]

/-- `ClouDNSAPI.list_records`. -/
def ClouDNSAPI.list_records {J : Type} (self : ClouDNSAPI J) (domain_name : String)
    (host : Option String := Option.none) (host_like : Option String := Option.none)
    (record_type : Option String := Option.none) (rows_per_page : Int := 20)
    (page : Int := 1) (order_by : Option String := Option.none) :
    ApiResult J × List HttpCall :=
  self.make_request "dns/records.json" "GET"
    (some (self.list_records_params domain_name host host_like record_type rows_per_page
      page order_by)) Option.none

/-- The parameter set built by `ClouDNSAPI.get_records_pages_count`. -/
def ClouDNSAPI.get_records_pages_count_params {J : Type} (self : ClouDNSAPI J)
    (domain_name : String) (host record_type : Option String) (rows_per_page : Int) : Params :=
  self._auth_params [("domain-name", Value.str domain_name), ("host", optStr host),
    ("type", optStr record_type), ("rows-per-page", Value.int rows_per_page)]

/-- `ClouDNSAPI.get_records_pages_count`. -/
def ClouDNSAPI.get_records_pages_count {J : Type} (self : ClouDNSAPI J) (domain_name : String)
    (host : Option String := Option.none) (record_type : Option String := Option.none)
    (rows_per_page : Int := 20) : ApiResult J × List HttpCall :=
  self.make_request "dns/get-records-pages-count.json" "GET"
    (some (self.get_records_pages_count_params domain_name host record_type rows_per_page))
    Option.none

/-- The `record_data` dictionary built by `ClouDNSAPI.add_record`: the
comprehension over `locals()` keeps, in declaration order, every local
other than `kwargs` whose value is not `None` (`self`, `domain_name`,
`record_type`, `record` when set, `host`, `ttl`), then `update(kwargs)`. -/
def add_record_data (domain_name record_type : String) (record : Option String)
    (host : String) (ttl : Int) (kwargs : Params) : Params :=
  dictUpdate ([("self", Value.obj), ("domain_name", Value.str domain_name),
      ("record_type", Value.str record_type)]
    ++ (match record with
        | Option.none => []
        | some r => [("record", Value.str r)])
    ++ [("host", Value.str host), ("ttl", Value.int ttl)]) kwargs

/-- `ClouDNSAPI.add_record`, parameterized by the external validation
collaborator `validate`.  When validation succeeds, the source evaluates
`self._auth_params({record_data})`: the set literal places the
`record_data` dictionary inside a set, and a dictionary is unhashable, so
Python raises `TypeError: unhashable type: 'dict'` there, before any
transport call.  When validation fails, a `ValueError` is raised. -/
def ClouDNSAPI.add_record {J : Type} (self : ClouDNSAPI J)
    (validate : Params → Bool × String) (domain_name record_type : String)
    (record : Option String := Option.none) (host : String := "") (ttl : Int := 3600)
    (kwargs : Params := []) : ApiResult J × List HttpCall :=
  let record_data := add_record_data domain_name record_type record host ttl kwargs
  let vres := validate record_data
  if vres.1 then
    (ApiResult.typeError "unhashable type: 'dict'", [])
  else
    (ApiResult.valueError ("Error: " ++ vres.2), [])

/-- The parameter set built by `ClouDNSAPI.delete_record`. -/
def ClouDNSAPI.delete_record_params {J : Type} (self : ClouDNSAPI J) (domain_name : String)
    (record_id : Int) : Params :=
  self._auth_params [("domain-name", Value.str domain_name),
    ("record-id", Value.int record_id)]

/-- `ClouDNSAPI.delete_record`. -/
def ClouDNSAPI.delete_record {J : Type} (self : ClouDNSAPI J) (domain_name : String)
    (record_id : Int) : ApiResult J × List HttpCall :=
  self.make_request "dns/delete-record.json" "POST"
    (some (self.delete_record_params domain_name record_id)) Option.none

/-- The `record_data` dictionary built by `ClouDNSAPI.modify_record`:
`locals()` order is `self`, `domain_name`, `record_id`, `host`, `record`,
`ttl`; `kwargs` is excluded and `None` values are skipped, then
`update(kwargs)`. -/
def modify_record_data (domain_name : String) (record_id : Int) (host : String)
    (record : Option String) (ttl : Int) (kwargs : Params) : Params :=
  dictUpdate ([("self", Value.obj), ("domain_name", Value.str domain_name),
      ("record_id", Value.int record_id), ("host", Value.str host)]
    ++ (match record with
        | Option.none => []
        | some r => [("record", Value.str r)])
    ++ [("ttl", Value.int ttl)]) kwargs

/-- `ClouDNSAPI.modify_record`, parameterized by the external validation
collaborator; like `add_record`, the valid path evaluates the set literal
`{record_data}` and raises `TypeError` before any transport call. -/
def ClouDNSAPI.modify_record {J : Type} (self : ClouDNSAPI J)
    (validate : Params → Bool × String) (domain_name : String) (record_id : Int)
    (host : String := "") (record : Option String := Option.none) (ttl : Int := 3600)
    (kwargs : Params := []) : ApiResult J × List HttpCall :=
  let record_data := modify_record_data domain_name record_id host record ttl kwargs
  let vres := validate record_data
  if vres.1 then
    (ApiResult.typeError "unhashable type: 'dict'", [])
  else
    (ApiResult.valueError ("Error: " ++ vres.2), [])

/-- The parameter set built by `ClouDNSAPI.copy_records`. -/
def ClouDNSAPI.copy_records_params {J : Type} (self : ClouDNSAPI J)
    (domain_name from_domain : String) (delete_current_records : Bool) : Params :=
  self._auth_params [("domain-name", Value.str domain_name),
    ("from-domain", Value.str from_domain),
    ("delete-current-records", Value.int (if delete_current_records then 1 else 0))]

/-- `ClouDNSAPI.copy_records`. -/
def ClouDNSAPI.copy_records {J : Type} (self : ClouDNSAPI J) (domain_name from_domain : String)
    (delete_current_records : Bool := false) : ApiResult J × List HttpCall :=
  self.make_request "dns/copy-records.json" "POST"
    (some (self.copy_records_params domain_name from_domain delete_current_records))
    Option.none

/-- The ordered tuple list built by `ClouDNSAPI.import_records`:
credentials, domain name, format and content, then one `record-types[]`
entry per requested type when the list is truthy, then the
delete-existing-records flag encoded as the integer 1 or 0. -/
def ClouDNSAPI.import_records_params {J : Type} (self : ClouDNSAPI J) (domain_name : String)
    (format content : String) (delete_exisiting_records : Bool)
    (record_types : List String) : Params :=
  let params : Params := [("auth-id", self.auth_id), ("auth-password", self.auth_password),
    ("domain-name", Value.str domain_name), ("format", Value.str format),
    ("content", Value.str content)]
  let params := if record_types.isEmpty then params
    else params ++ record_types.map (fun type => ("record-types[]", Value.str type))
  params ++ [("delete-existing-records",
    Value.int (if delete_exisiting_records then 1 else 0))]

/-- `ClouDNSAPI.import_records`. -/
def ClouDNSAPI.import_records {J : Type} (self : ClouDNSAPI J) (domain_name : String)
    (format : String := "bind") (content : String := "")
    (delete_exisiting_records : Bool := false) (record_types : List String := []) :
    ApiResult J × List HttpCall :=
  self.make_request "dns/records-import.json" "POST"
    (some (self.import_records_params domain_name format content delete_exisiting_records
      record_types)) Option.none

/-- Modelled from the spec: the `rate_limited` decorator
(`cloudns_sdk/rate_limit.py`) applied to `make_request` is not among the
sources here.  Per the spec, on each invocation the limiter computes the
elapsed time since the operation's last permitted invocation and, when
the elapsed time is below the minimum interval `1 / rate`, suspends the
caller for the remaining time; the new last-call timestamp is recorded at
the moment the call proceeds.  `permit` returns the time at which a call
arriving at `arrival` proceeds, given the last permitted time. -/
def permit (minInterval last arrival : ℚ) : ℚ :=
  if arrival - last < minInterval then last + minInterval else arrival

/-- Modelled from the spec: the sequence of permitted start times for a
queue of arrivals, threading the last-permitted-call timestamp. -/
def permittedTimes (minInterval : ℚ) : ℚ → List ℚ → List ℚ
  | _, [] => []
  | last, a :: rest =>
    let p := permit minInterval last a
    p :: permittedTimes minInterval p rest

/-- Documented behavior of the `requests` transport collaborator: query
parameters whose value is `None` are omitted from the URL query string.
`wireQuery` is the parameter set as it appears on the wire. -/
def wireQuery (p : Params) : Params :=
  p.filter (fun kv =>
    match kv.2 with
    | Value.none => false
    | _ => true)

/-- A concrete client used as a test double: fixed credentials and a
transport that always answers 200 with the JSON body `7`. -/
def sampleAPI : ClouDNSAPI Nat :=
  { auth_id := Value.str "user1", auth_password := Value.str "pw1",
    transport := fun _ => (200, 7) }

/-- A validation-collaborator double that accepts every record. -/
def acceptAll : Params → Bool × String := fun _ => (true, "")

/-- A validation-collaborator double that rejects every record. -/
def rejectAll : Params → Bool × String := fun _ => (false, "record invalid")

/-- Claim C4: for every call to `make_request` with a method value outside
GET and POST, the call fails with `ValueError` and issues no transport
call (the list of issued calls is empty). -/
theorem make_request_invalid_method_no_transport_call {J : Type} (api : ClouDNSAPI J)
    (endpoint method : String) (params data : Option Params)
    (hg : method ≠ "GET") (hp : method ≠ "POST") :
    api.make_request endpoint method params data
      = (ApiResult.valueError "Unsupported HTTP method", []) := by
  simp [ClouDNSAPI.make_request, hg, hp]

/-- Witness for claim C4 at the concrete method `"PUT"`. -/
theorem make_request_invalid_method_no_transport_call_witness :
    sampleAPI.make_request "dns/delete.json" "PUT" Option.none Option.none
      = (ApiResult.valueError "Unsupported HTTP method", []) :=
  make_request_invalid_method_no_transport_call sampleAPI "dns/delete.json" "PUT"
    Option.none Option.none (by decide) (by decide)

/-- Claim C3: for every call to `make_request` with method GET or POST,
the result is the parsed body on status 200 and a `ClouDNSAPIException`
carrying the parsed error body otherwise, and the call succeeds with a
payload exactly when the status is 200. -/
theorem make_request_success_iff_status_200 {J : Type} (api : ClouDNSAPI J)
    (endpoint : String) (params data : Option Params) :
    ((api.make_request endpoint "GET" params data).1
        = (if (api.transport (HttpCall.get (BASE_URL ++ "/" ++ endpoint) (params.getD []))).1 = 200
           then ApiResult.ok (api.transport (HttpCall.get (BASE_URL ++ "/" ++ endpoint) (params.getD []))).2
           else ApiResult.clouDNSAPIException
             (api.transport (HttpCall.get (BASE_URL ++ "/" ++ endpoint) (params.getD []))).2))
    ∧ ((api.make_request endpoint "POST" params data).1
        = (if (api.transport (HttpCall.post (BASE_URL ++ "/" ++ endpoint) (data.getD []))).1 = 200
           then ApiResult.ok (api.transport (HttpCall.post (BASE_URL ++ "/" ++ endpoint) (data.getD []))).2
           else ApiResult.clouDNSAPIException
             (api.transport (HttpCall.post (BASE_URL ++ "/" ++ endpoint) (data.getD []))).2))
    ∧ ((∃ payload, (api.make_request endpoint "GET" params data).1 = ApiResult.ok payload)
        ↔ (api.transport (HttpCall.get (BASE_URL ++ "/" ++ endpoint) (params.getD []))).1 = 200)
    ∧ ((∃ payload, (api.make_request endpoint "POST" params data).1 = ApiResult.ok payload)
        ↔ (api.transport (HttpCall.post (BASE_URL ++ "/" ++ endpoint) (data.getD []))).1 = 200) := by
  refine ⟨?_, ?_, ?_, ?_⟩
  · by_cases h : (api.transport (HttpCall.get (BASE_URL ++ "/" ++ endpoint) (params.getD []))).1 = 200 <;>
      simp [ClouDNSAPI.make_request, h]
  · by_cases h : (api.transport (HttpCall.post (BASE_URL ++ "/" ++ endpoint) (data.getD []))).1 = 200 <;>
      simp [ClouDNSAPI.make_request, h]
  · by_cases h : (api.transport (HttpCall.get (BASE_URL ++ "/" ++ endpoint) (params.getD []))).1 = 200 <;>
      simp [ClouDNSAPI.make_request, h]
  · by_cases h : (api.transport (HttpCall.post (BASE_URL ++ "/" ++ endpoint) (data.getD []))).1 = 200 <;>
      simp [ClouDNSAPI.make_request, h]

/-- Claim C2: a POST dispatched by `make_request` sends exactly the
`data` argument (or the empty mapping) as its body and ignores `params`
entirely, so every POST operation that supplies its parameters only via
`params` sends an empty body regardless of its arguments. -/
theorem post_ignores_params_and_param_post_ops_send_empty_body {J : Type}
    (api : ClouDNSAPI J) :
    (∀ (endpoint : String) (p q d : Option Params),
        api.make_request endpoint "POST" p d = api.make_request endpoint "POST" q d)
    ∧ (∀ (endpoint : String) (p d : Option Params),
        (api.make_request endpoint "POST" p d).2
          = [HttpCall.post (BASE_URL ++ "/" ++ endpoint) (d.getD [])])
    ∧ (∀ dn zt ns mip, ((api.register_domain_zone dn zt ns mip).2.map callBody) = [[]])
    ∧ (∀ dn, ((api.delete_domain_zone dn).2.map callBody) = [[]])
    ∧ (∀ dn, ((api.update_zone dn).2.map callBody) = [[]])
    ∧ (∀ dn st, ((api.change_zone_status dn st).2.map callBody) = [[]])
    ∧ (∀ dn rid, ((api.delete_record dn rid).2.map callBody) = [[]])
    ∧ (∀ dn fd del, ((api.copy_records dn fd del).2.map callBody) = [[]])
    ∧ (∀ dn fmt content del rts,
        ((api.import_records dn fmt content del rts).2.map callBody) = [[]]) := by
  refine ⟨fun endpoint p q d => ?_, fun endpoint p d => ?_, fun dn zt ns mip => ?_,
    fun dn => ?_, fun dn => ?_, fun dn st => ?_, fun dn rid => ?_, fun dn fd del => ?_,
    fun dn fmt content del rts => ?_⟩ <;>
    simp [ClouDNSAPI.make_request, ClouDNSAPI.register_domain_zone,
      ClouDNSAPI.delete_domain_zone, ClouDNSAPI.update_zone, ClouDNSAPI.change_zone_status,
      ClouDNSAPI.delete_record, ClouDNSAPI.copy_records, ClouDNSAPI.import_records,
      callBody, apply_ite]

/-- Claim C1 (code bug): at the failing input `delete_domain_zone
"example.com"`, the single request handed to the transport is a POST with
an empty body, so neither `auth-id` nor `auth-password` reaches the
transport, contrary to the credentials invariant. -/
theorem delete_domain_zone_sends_empty_body_without_credentials :
    (sampleAPI.delete_domain_zone "example.com").2
        = [HttpCall.post "https://api.cloudns.net/dns/delete.json" []]
      ∧ ((sampleAPI.delete_domain_zone "example.com").2.map
          (fun c => List.lookup "auth-id" (callBody c))) = [Option.none]
      ∧ ((sampleAPI.delete_domain_zone "example.com").2.map
          (fun c => List.lookup "auth-password" (callBody c))) = [Option.none] := by
  refine ⟨?_, ?_, ?_⟩ <;>
    simp [ClouDNSAPI.delete_domain_zone, ClouDNSAPI.make_request, BASE_URL, callBody,
      apply_ite]

/-- Claim C5 (code bug): on the valid-record path, `add_record` evaluates
`self._auth_params({record_data})`, whose set literal places the
`record_data` dictionary inside a set; a dict is unhashable, so at the
failing input below the call raises `TypeError` and never issues the
POST the claim describes. -/
theorem add_record_valid_data_raises_type_error :
    sampleAPI.add_record acceptAll "example.com" "A" (some "1.2.3.4") "" 3600 []
        = (ApiResult.typeError "unhashable type: 'dict'", [])
      ∧ sampleAPI.modify_record acceptAll "example.com" 42 "" (some "1.2.3.4") 3600 []
        = (ApiResult.typeError "unhashable type: 'dict'", []) :=
  ⟨rfl, rfl⟩

/-- Claim C6: when the validation collaborator reports invalid,
`add_record` and `modify_record` raise `ValueError` describing the
failure and issue no transport call. -/
theorem record_validation_failure_value_error_no_transport_call {J : Type}
    (api : ClouDNSAPI J) (validate : Params → Bool × String) (dn rt host : String)
    (record : Option String) (ttl rid : Int) (kwargs : Params)
    (h1 : (validate (add_record_data dn rt record host ttl kwargs)).1 = false)
    (h2 : (validate (modify_record_data dn rid host record ttl kwargs)).1 = false) :
    api.add_record validate dn rt record host ttl kwargs
        = (ApiResult.valueError
            ("Error: " ++ (validate (add_record_data dn rt record host ttl kwargs)).2), [])
      ∧ api.modify_record validate dn rid host record ttl kwargs
        = (ApiResult.valueError
            ("Error: " ++ (validate (modify_record_data dn rid host record ttl kwargs)).2),
           []) := by
  constructor
  · simp [ClouDNSAPI.add_record, h1]
  · simp [ClouDNSAPI.modify_record, h2]

/-- Witness for claim C6 with the rejecting validation double. -/
theorem record_validation_failure_witness :
    sampleAPI.add_record rejectAll "example.com" "A" (some "1.2.3.4") "" 3600 []
        = (ApiResult.valueError ("Error: " ++ "record invalid"), [])
      ∧ sampleAPI.modify_record rejectAll "example.com" 42 "" (some "1.2.3.4") 3600 []
        = (ApiResult.valueError ("Error: " ++ "record invalid"), []) :=
  record_validation_failure_value_error_no_transport_call sampleAPI rejectAll
    "example.com" "A" "" (some "1.2.3.4") 3600 42 [] rfl rfl

/-- Counterexample to claim C7: at the concrete input `list_records
"example.com"` with every optional argument left at its default, the key
`"host"` IS present in the outgoing parameter set (mapped to the `None`
marker), refuting "the corresponding key is not present at all". -/
theorem list_records_unset_host_key_present :
    List.lookup "host" (sampleAPI.list_records_params "example.com" Option.none Option.none
        Option.none 20 1 Option.none) = some Value.none
      ∧ (List.lookup "host" (sampleAPI.list_records_params "example.com" Option.none
          Option.none Option.none 20 1 Option.none)).isSome = true := by
  constructor <;>
    simp [ClouDNSAPI.list_records_params, ClouDNSAPI._auth_params, dictUpdate, dictInsert,
      optStr, List.lookup]

/-- The parameter set of `list_records` with every optional argument left
unset, flattened. -/
lemma list_records_params_unset {J : Type} (api : ClouDNSAPI J) (dn : String)
    (rpp pg : Int) :
    api.list_records_params dn Option.none Option.none Option.none rpp pg Option.none
      = [("auth-id", api.auth_id), ("auth-password", api.auth_password),
         ("domain-name", Value.str dn), ("host", Value.none), ("host-like", Value.none),
         ("type", Value.none), ("rows-per-page", Value.int rpp), ("page", Value.int pg),
         ("order-by", Value.none)] := by
  simp [ClouDNSAPI.list_records_params, ClouDNSAPI._auth_params, dictUpdate, dictInsert,
    optStr]

/-- The parameter set of `list_zones` with every optional argument left
unset, flattened. -/
lemma list_zones_params_unset {J : Type} (api : ClouDNSAPI J) (pg rpp : Int) :
    api.list_zones_params pg rpp Option.none Option.none Option.none
      = [("auth-id", api.auth_id), ("auth-password", api.auth_password),
         ("page", Value.int pg), ("rows-per-page", Value.int rpp), ("search", Value.none),
         ("group-id", Value.none), ("has-cloud-domains", Value.none)] := by
  simp [ClouDNSAPI.list_zones_params, ClouDNSAPI._auth_params, dictUpdate, dictInsert,
    optStr, optInt]

/-- The parameter set of `get_pages_count` with every optional argument
left unset, flattened. -/
lemma get_pages_count_params_unset {J : Type} (api : ClouDNSAPI J) (rpp : Int) :
    api.get_pages_count_params rpp Option.none Option.none Option.none
      = [("auth-id", api.auth_id), ("auth-password", api.auth_password),
         ("rows-per-page", Value.int rpp), ("search", Value.none), ("group-id", Value.none),
         ("has-cloud-domains", Value.none)] := by
  simp [ClouDNSAPI.get_pages_count_params, ClouDNSAPI._auth_params, dictUpdate, dictInsert,
    optStr, optInt]

/-- The parameter set of `change_zone_status` with the status argument
left unset, flattened. -/
lemma change_zone_status_params_unset {J : Type} (api : ClouDNSAPI J) (dn : String) :
    api.change_zone_status_params dn Option.none
      = [("auth-id", api.auth_id), ("auth-password", api.auth_password),
         ("domain-name", Value.str dn), ("status", Value.none)] := by
  simp [ClouDNSAPI.change_zone_status_params, ClouDNSAPI._auth_params, dictUpdate,
    dictInsert, optInt]

set_option maxHeartbeats 1600000 in
/-- Claim C7, amended: an optional argument left at its `None` default is
carried in the outgoing parameter set with its key mapped to the `None`
marker — never to an empty value — and, for the GET operations, the
`requests` transport omits `None`-valued parameters, so the key is absent
from the wire query string. -/
theorem unset_args_mapped_to_none_and_absent_from_wire {J : Type} (api : ClouDNSAPI J) :
    (∀ (dn : String) (rpp pg : Int),
        List.lookup "host" (api.list_records_params dn Option.none Option.none Option.none rpp pg Option.none) = some Value.none
      ∧ List.lookup "host-like" (api.list_records_params dn Option.none Option.none Option.none rpp pg Option.none) = some Value.none
      ∧ List.lookup "type" (api.list_records_params dn Option.none Option.none Option.none rpp pg Option.none) = some Value.none
      ∧ List.lookup "order-by" (api.list_records_params dn Option.none Option.none Option.none rpp pg Option.none) = some Value.none
      ∧ List.lookup "host" (wireQuery (api.list_records_params dn Option.none Option.none Option.none rpp pg Option.none)) = Option.none
      ∧ List.lookup "host-like" (wireQuery (api.list_records_params dn Option.none Option.none Option.none rpp pg Option.none)) = Option.none
      ∧ List.lookup "type" (wireQuery (api.list_records_params dn Option.none Option.none Option.none rpp pg Option.none)) = Option.none
      ∧ List.lookup "order-by" (wireQuery (api.list_records_params dn Option.none Option.none Option.none rpp pg Option.none)) = Option.none)
    ∧ (∀ (pg rpp : Int),
        List.lookup "search" (api.list_zones_params pg rpp Option.none Option.none Option.none) = some Value.none
      ∧ List.lookup "group-id" (api.list_zones_params pg rpp Option.none Option.none Option.none) = some Value.none
      ∧ List.lookup "has-cloud-domains" (api.list_zones_params pg rpp Option.none Option.none Option.none) = some Value.none
      ∧ List.lookup "search" (wireQuery (api.list_zones_params pg rpp Option.none Option.none Option.none)) = Option.none
      ∧ List.lookup "group-id" (wireQuery (api.list_zones_params pg rpp Option.none Option.none Option.none)) = Option.none
      ∧ List.lookup "has-cloud-domains" (wireQuery (api.list_zones_params pg rpp Option.none Option.none Option.none)) = Option.none)
    ∧ (∀ (rpp : Int),
        List.lookup "search" (api.get_pages_count_params rpp Option.none Option.none Option.none) = some Value.none
      ∧ List.lookup "search" (wireQuery (api.get_pages_count_params rpp Option.none Option.none Option.none)) = Option.none)
    ∧ (∀ (dn : String),
        List.lookup "status" (api.change_zone_status_params dn Option.none) = some Value.none
      ∧ List.lookup "status" (wireQuery (api.change_zone_status_params dn Option.none)) = Option.none) := by
  refine ⟨fun dn rpp pg => ?_, fun pg rpp => ?_, fun rpp => ?_, fun dn => ?_⟩
  · simp [list_records_params_unset, wireQuery, List.lookup, optStr]
  · simp [list_zones_params_unset, wireQuery, List.lookup, optStr, optInt]
  · simp [get_pages_count_params_unset, wireQuery, List.lookup, optStr, optInt]
  · simp [change_zone_status_params_unset, wireQuery, List.lookup, optInt]

/-- Claim C8: every operation taking a domain name places the key
`domain-name`, mapped to the literal input string, in the parameter set it
builds and delivers for the request. -/
theorem domain_name_param_is_literal_input {J : Type} (api : ClouDNSAPI J) :
    (∀ dn, List.lookup "domain-name" (api.get_zone_info_params dn) = some (Value.str dn))
    ∧ (∀ dn, List.lookup "domain-name" (api.delete_domain_zone_params dn) = some (Value.str dn))
    ∧ (∀ dn, List.lookup "domain-name" (api.update_zone_params dn) = some (Value.str dn))
    ∧ (∀ dn host hl rt rpp pg ob,
        List.lookup "domain-name" (api.list_records_params dn host hl rt rpp pg ob)
          = some (Value.str dn))
    ∧ (∀ dn zt ns mip,
        List.lookup "domain-name" (api.register_domain_zone_params dn zt ns mip)
          = some (Value.str dn))
    ∧ (∀ dn fd del,
        List.lookup "domain-name" (api.copy_records_params dn fd del) = some (Value.str dn))
    ∧ (∀ dn fmt content del rts,
        List.lookup "domain-name" (api.import_records_params dn fmt content del rts)
          = some (Value.str dn)) := by
  refine ⟨fun dn => ?_, fun dn => ?_, fun dn => ?_, fun dn host hl rt rpp pg ob => ?_,
    fun dn zt ns mip => ?_, fun dn fd del => ?_, fun dn fmt content del rts => ?_⟩
  · simp [ClouDNSAPI.get_zone_info_params, ClouDNSAPI._auth_params, dictUpdate, dictInsert,
      List.lookup]
  · simp [ClouDNSAPI.delete_domain_zone_params, List.lookup]
  · simp [ClouDNSAPI.update_zone_params, ClouDNSAPI._auth_params, dictUpdate, dictInsert,
      List.lookup]
  · simp [ClouDNSAPI.list_records_params, ClouDNSAPI._auth_params, dictUpdate, dictInsert,
      List.lookup]
  · cases mip <;> cases ns <;>
      simp [ClouDNSAPI.register_domain_zone_params, List.lookup, List.cons_append]
  · simp [ClouDNSAPI.copy_records_params, ClouDNSAPI._auth_params, dictUpdate, dictInsert,
      List.lookup]
  · cases rts <;>
      simp [ClouDNSAPI.import_records_params, List.lookup, List.cons_append]

/-- Filtering the `record-types[]` entries back out of the tuple list
recovers the requested record types, in order. -/
lemma filter_map_record_types (t : List String) :
    List.map Prod.snd (List.filter (fun kv => kv.1 == "record-types[]")
        (t.map (fun type => ("record-types[]", Value.str type)))) = t.map Value.str := by
  induction t with
  | nil => simp
  | cons h t ih => simp [List.filter_cons, ih]

/-- Claim C9: `import_records` emits one `record-types[]` entry per
requested record type, with the input values in input order, and encodes
the delete-existing-records flag as the integer 1 when the flag is true
and 0 when it is false. -/
theorem import_records_types_in_order_and_flag_encoding {J : Type} (api : ClouDNSAPI J)
    (dn fmt content : String) (del : Bool) (rts : List String) :
    ((api.import_records_params dn fmt content del rts).filter
        (fun kv => kv.1 == "record-types[]")).map Prod.snd = rts.map Value.str
    ∧ (api.import_records_params dn fmt content del rts).getLast?
        = some ("delete-existing-records", Value.int (if del then 1 else 0)) := by
  constructor
  · cases rts with
    | nil => simp [ClouDNSAPI.import_records_params]
    | cons h t =>
      simp [ClouDNSAPI.import_records_params, List.filter_append, List.filter_cons,
        List.cons_append, filter_map_record_types]
  · simp [ClouDNSAPI.import_records_params, List.getLast?_concat]

/-- A permitted call never starts earlier than one minimum interval after
the previously permitted call. -/
lemma le_permit (m last a : ℚ) : last + m ≤ permit m last a := by
  by_cases h : a - last < m
  · simp [permit, h]
  · simp only [permit, if_neg h]
    linarith [not_lt.mp h]

/-- Consecutive permitted start times are separated by at least the
minimum interval. -/
lemma permittedTimes_chain (m : ℚ) (as : List ℚ) :
    ∀ last, List.Chain' (fun x y => x + m ≤ y) (permittedTimes m last as) := by
  induction as with
  | nil => intro last; simp [permittedTimes]
  | cons a rest ih =>
    intro last
    cases rest with
    | nil => simp [permittedTimes]
    | cons b rest2 =>
      have hc := ih (permit m last a)
      simp only [permittedTimes] at hc ⊢
      exact List.chain'_cons.mpr ⟨le_permit m (permit m last a) b, hc⟩

/-- Along a chain whose consecutive entries are separated by at least
`m`, entry `j` is at least `(j - i) * m` after entry `i`. -/
lemma chain_get_le (m : ℚ) (L : List ℚ) (hc : List.Chain' (fun x y => x + m ≤ y) L)
    (i j : ℕ) (hi : i < L.length) (hj : j < L.length) (hij : i ≤ j) :
    L.get ⟨i, hi⟩ + ((j - i : ℕ) : ℚ) * m ≤ L.get ⟨j, hj⟩ := by
  induction j with
  | zero =>
    have h0 : i = 0 := Nat.le_zero.mp hij
    subst h0
    simp
  | succ k ih =>
    by_cases hik : i = k + 1
    · subst hik
      simp
    · have hik' : i ≤ k := by omega
      have hk : k < L.length := by omega
      have step : L.get ⟨k, hk⟩ + m ≤ L.get ⟨k + 1, hj⟩ :=
        (List.chain'_iff_get.mp hc) k (by omega)
      have ihk : L.get ⟨i, hi⟩ + ((k - i : ℕ) : ℚ) * m ≤ L.get ⟨k, hk⟩ := ih hk hik'
      have hcast : ((k + 1 - i : ℕ) : ℚ) = ((k - i : ℕ) : ℚ) + 1 := by
        have hsub : k + 1 - i = (k - i) + 1 := by omega
        rw [hsub]
        push_cast
        ring
      rw [hcast]
      linarith

/-- Claim C10: for the rate limiter configured at
`RATE_LIMIT_PER_SECOND = 20` calls per second, each permitted call starts
at least `1 / 20` second after the previous permitted call, and the span
from permitted call `i` to permitted call `j` is at least `(j - i) / 20`
seconds — in particular, the span from the first to the last of `N`
calls is at least `(N - 1) / 20`. -/
theorem rate_limited_min_interval_and_span (last : ℚ) (arrivals : List ℚ) :
    (∀ (i : ℕ)
        (hi : i + 1 < (permittedTimes (1 / (RATE_LIMIT_PER_SECOND : ℚ)) last arrivals).length),
        (permittedTimes (1 / (RATE_LIMIT_PER_SECOND : ℚ)) last arrivals).get
            ⟨i, Nat.lt_of_succ_lt hi⟩ + 1 / (RATE_LIMIT_PER_SECOND : ℚ)
          ≤ (permittedTimes (1 / (RATE_LIMIT_PER_SECOND : ℚ)) last arrivals).get ⟨i + 1, hi⟩)
    ∧ (∀ (i j : ℕ)
        (hi : i < (permittedTimes (1 / (RATE_LIMIT_PER_SECOND : ℚ)) last arrivals).length)
        (hj : j < (permittedTimes (1 / (RATE_LIMIT_PER_SECOND : ℚ)) last arrivals).length),
        i ≤ j →
        (permittedTimes (1 / (RATE_LIMIT_PER_SECOND : ℚ)) last arrivals).get ⟨i, hi⟩
            + ((j - i : ℕ) : ℚ) * (1 / (RATE_LIMIT_PER_SECOND : ℚ))
          ≤ (permittedTimes (1 / (RATE_LIMIT_PER_SECOND : ℚ)) last arrivals).get ⟨j, hj⟩) := by
  constructor
  · intro i hi
    exact (List.chain'_iff_get.mp
      (permittedTimes_chain (1 / (RATE_LIMIT_PER_SECOND : ℚ)) arrivals last)) i (by omega)
  · intro i j hi hj hij
    exact chain_get_le (1 / (RATE_LIMIT_PER_SECOND : ℚ)) _
      (permittedTimes_chain (1 / (RATE_LIMIT_PER_SECOND : ℚ)) arrivals last) i j hi hj hij

/-- Witness for claim C10 at two calls both arriving at time 0: the
second permitted start is at least `1 / 20` after the first. -/
theorem rate_limited_min_interval_and_span_witness :
    (permittedTimes (1 / (RATE_LIMIT_PER_SECOND : ℚ)) 0 [0, 0]).get
        ⟨0, by simp [permittedTimes]⟩
        + ((1 - 0 : ℕ) : ℚ) * (1 / (RATE_LIMIT_PER_SECOND : ℚ))
      ≤ (permittedTimes (1 / (RATE_LIMIT_PER_SECOND : ℚ)) 0 [0, 0]).get
        ⟨1, by simp [permittedTimes]⟩ :=
  (rate_limited_min_interval_and_span 0 [0, 0]).2 0 1 (by simp [permittedTimes])
    (by simp [permittedTimes]) (by omega)

end CloudnsSdk



